import Mathlib

/-!
# Page controller of the basketball-coach site (`app.js`)

A shallow embedding of the client-side controller: the `appState.chatOpen`
flag, the class lists of the chat panel, the mobile chat button and the nav
links, `localStorage`, the screen-reader live regions, the debounce utility
and the intersection-observer callback.  Handlers are state transformers.
-/

namespace App

/-! ## DOM token lists (`element.classList`) -/

/-- Embeds `classList.add(tok)`: a token list is an ordered set, a token already
present is not added again. -/
def classListAdd (cl : List String) (tok : String) : List String :=
  if tok ∈ cl then cl else cl ++ [tok]

/-- Embeds `classList.remove(tok)`: every occurrence of the token goes. -/
def classListRemove (cl : List String) (tok : String) : List String :=
  cl.filter (fun c => c != tok)

/-! ## `localStorage` -/

/-- Embeds `localStorage.getItem(key)`: the stored string, `none` for JavaScript's
`null` when the key is absent. -/
def getItem (store : List (String × String)) (key : String) : Option String :=
  match store with
  | [] => none
  | (k, v) :: rest => if k = key then some v else getItem rest key

/-- Embeds `localStorage.setItem(key, value)`: overwrite the entry or create it. -/
def setItem (store : List (String × String)) (key value : String) :
    List (String × String) :=
  match store with
  | [] => [(key, value)]
  | (k, v) :: rest =>
    if k = key then (k, value) :: rest else (k, v) :: setItem rest key value

/-- Embeds `JSON.stringify` on a boolean. -/
def jsonStringifyBool (b : Bool) : String :=
  if b then "true" else "false"

/-! ## Controller state -/

/-- The off-screen live region built by `announceToScreenReader`. -/
structure LiveRegion where
  role : String
  ariaLive : String
  position : String
  left : String
  textContent : String
  deriving DecidableEq, Repr

/-- Everything the chat handlers read or write. -/
structure State where
  /-- Field `appState.chatOpen`. -/
  chatOpen : Bool
  /-- Value of `chatPanel.classList`. -/
  chatPanel : List String
  /-- Value of `mobileChatButton.classList`. -/
  mobileChatButton : List String
  /-- Contents of `localStorage`. -/
  localStorage : List (String × String)
  /-- Live regions appended to `document.body`, oldest first. -/
  body : List LiveRegion
  /-- Delays of the removal timers set by `announceToScreenReader`. -/
  removalTimers : List Nat
  /-- Number of `chatPanel.focus()` calls so far. -/
  panelFocus : Nat
  deriving DecidableEq, Repr

/-- The messages announced so far, oldest first. -/
def State.announcements (s : State) : List String :=
  s.body.map (fun r => r.textContent)

/-- Whether the chat panel carries the class `active`. -/
def State.panelActive (s : State) : Prop := "active" ∈ s.chatPanel

/-- Whether the mobile chat button carries the class `active`. -/
def State.mobileActive (s : State) : Prop := "active" ∈ s.mobileChatButton

/-- The value stored under the key `chatOpen`. -/
def State.stored (s : State) : Option String := getItem s.localStorage "chatOpen"

instance (s : State) : Decidable s.panelActive := by
  unfold State.panelActive; infer_instance

instance (s : State) : Decidable s.mobileActive := by
  unfold State.mobileActive; infer_instance

def openedMessage : String :=
  "Chat window opened. Your basketball coach is ready to help!"

def closedMessage : String := "Chat window closed."

/-- Embeds `announceToScreenReader(message)`: build the live region, append it to the
body and schedule its removal after 3000 ms. -/
def announceToScreenReader (message : String) (s : State) : State :=
  let announcement : LiveRegion :=
    { role := "status", ariaLive := "polite", position := "absolute",
      left := "-10000px", textContent := message }
  { s with body := s.body ++ [announcement],
           removalTimers := s.removalTimers ++ [3000] }

/-- Embeds `openChat()`. -/
def openChat (s : State) : State :=
  let s1 := { s with chatPanel := classListAdd s.chatPanel "active" }
  let s2 := { s1 with mobileChatButton := classListAdd s1.mobileChatButton "active" }
  let s3 := announceToScreenReader openedMessage s2
  { s3 with panelFocus := s3.panelFocus + 1 }

/-- Embeds `closeChat()`. -/
def closeChat (s : State) : State :=
  let s1 := { s with chatPanel := classListRemove s.chatPanel "active" }
  let s2 := { s1 with mobileChatButton := classListRemove s1.mobileChatButton "active" }
  announceToScreenReader closedMessage s2

/-- Embeds `toggleChat()`. -/
def toggleChat (s : State) : State :=
  let s1 := { s with chatOpen := !s.chatOpen }
  let s2 := if s1.chatOpen then openChat s1 else closeChat s1
  { s2 with localStorage :=
      setItem s2.localStorage "chatOpen" (jsonStringifyBool s2.chatOpen) }

/-- Embeds `restoreChatState()`. -/
def restoreChatState (s : State) : State :=
  let savedState := getItem s.localStorage "chatOpen"
  if savedState = some "true" then
    toggleChat { s with chatOpen := false }
  else s

/-! ## Keyboard shortcuts -/

/-- The fields of a `keydown` event that the handler reads, whether the event
is cancelable, and its default-prevented flag. -/
structure KeyboardEvent where
  ctrlKey : Bool
  metaKey : Bool
  shiftKey : Bool
  code : String
  key : String
  cancelable : Bool
  defaultPrevented : Bool
  deriving DecidableEq, Repr

/-- Embeds `e.preventDefault()` in a listener that is not passive: the flag is
set on a cancelable event and nothing happens on one that is not. -/
def KeyboardEvent.preventDefault (e : KeyboardEvent) : KeyboardEvent :=
  if e.cancelable then { e with defaultPrevented := true } else e

/-- The guard of the first branch: Ctrl/Cmd + Shift + C. -/
def KeyboardEvent.isToggleCombo (e : KeyboardEvent) : Bool :=
  (e.ctrlKey || e.metaKey) && e.shiftKey && (e.code == "KeyC")

/-- Embeds `handleKeyboardShortcuts(e)`: the two `if` statements in sequence, the
second one reading the flag as the first one left it. -/
def handleKeyboardShortcuts (e : KeyboardEvent) (s : State) : KeyboardEvent × State :=
  let r : KeyboardEvent × State :=
    if e.isToggleCombo then (e.preventDefault, toggleChat s)
    else (e, s)
  if r.1.key == "Escape" && r.2.chatOpen then (r.1, closeChat r.2) else r

/-! ## Navigation -/

/-- A nav link: its `href` attribute (`none` when `getAttribute` gives `null`)
and its class list. -/
structure NavLink where
  href : Option String
  classList : List String
  deriving DecidableEq, Repr

/-- The outcomes of `document.querySelector(sel)`: the selector does not parse
(a `SyntaxError` is thrown), no element matches (`null`), or the first match. -/
inductive QueryResult where
  | syntaxError
  | null
  | element (id : Nat)
  deriving DecidableEq, Repr

/-- How a handler ends: it returns, or an exception leaves it. -/
inductive Completion where
  | normal
  | thrown (name : String)
  deriving DecidableEq, Repr

/-- The part of the document the nav handler touches: the `navLinks` node list
and the `scrollIntoView` calls made so far (element and `behavior`). -/
structure NavState where
  navLinks : List NavLink
  scrollCalls : List (Nat × String)
  deriving DecidableEq, Repr

/-- A click event dispatched to a nav link: `currentTarget` is the position of
the link in `navLinks` (the listener is attached to these links only). -/
structure ClickEvent where
  currentTarget : Nat
  cancelable : Bool
  defaultPrevented : Bool
  deriving DecidableEq, Repr

/-- Embeds `e.preventDefault()` in a listener that is not passive: the flag is
set on a cancelable event and nothing happens on one that is not (a click
dispatched as `new Event('click')`, say). -/
def ClickEvent.preventDefault (e : ClickEvent) : ClickEvent :=
  if e.cancelable then { e with defaultPrevented := true } else e

/-- Embeds `String.prototype.startsWith`, used as `href.startsWith('#')`. -/
def startsWith (s pre : String) : Bool :=
  pre.toList.isPrefixOf s.toList

/-- Apply `f` to the link at position `i`. -/
def modifyLink (f : NavLink → NavLink) : Nat → List NavLink → List NavLink
  | _, [] => []
  | 0, l :: ls => f l :: ls
  | i + 1, l :: ls => l :: modifyLink f i ls

/-- Embeds `handleNavClick(e)`, against a document whose `querySelector` is `query`. -/
def handleNavClick (query : String → QueryResult) (e : ClickEvent) (d : NavState) :
    Completion × ClickEvent × NavState :=
  match d.navLinks[e.currentTarget]? with
  | none => (Completion.thrown "TypeError", e, d)
  | some link =>
    match link.href with
    | none => (Completion.thrown "TypeError", e, d)
    | some href =>
      if startsWith href "#" then
        let e1 := e.preventDefault
        match query href with
        | QueryResult.syntaxError => (Completion.thrown "SyntaxError", e1, d)
        | QueryResult.null => (Completion.normal, e1, d)
        | QueryResult.element target =>
          let d1 := { d with scrollCalls := d.scrollCalls ++ [(target, "smooth")] }
          let cleared := d1.navLinks.map
            (fun l => { l with classList := classListRemove l.classList "active" })
          let d2 := { d1 with navLinks := cleared }
          let marked := modifyLink
            (fun l => { l with classList := classListAdd l.classList "active" })
            e.currentTarget d2.navLinks
          let d3 := { d2 with navLinks := marked }
          (Completion.normal, e1, d3)
      else (Completion.normal, e, d)

/-- Whether the nav link at position `i` carries `active`. -/
def NavState.active (d : NavState) (i : Nat) : Prop :=
  ∃ l, d.navLinks[i]? = some l ∧ "active" ∈ l.classList

/-! ## Timers and `debounce` -/

/-- A timer set by `setTimeout(later, wait)`: its handle, the time it is due,
and the arguments the closure `later` has captured. -/
structure Timer (α : Type) where
  id : Nat
  due : Nat
  args : α

/-- The scheduler together with one debounced function: the clock, the timers
set and neither fired nor cleared, the closure variable `timeout`, the state
`func` acts on, and the invocations of `func` so far (time and arguments). -/
structure Sched (σ α : Type) where
  now : Nat
  nextId : Nat
  pending : List (Timer α)
  timeout : Option Nat
  world : σ
  invoked : List (Nat × α)

/-- Embeds `clearTimeout(handle)`; `none` is `undefined`, which clears nothing. -/
def clearTimeout {σ α : Type} (handle : Option Nat) (s : Sched σ α) : Sched σ α :=
  match handle with
  | none => s
  | some i => { s with pending := s.pending.filter (fun t => t.id != i) }

/-- Embeds `setTimeout(later, wait)` for the closure `later` over `args`. -/
def setTimeout {σ α : Type} (args : α) (wait : Nat) (s : Sched σ α) : Nat × Sched σ α :=
  (s.nextId,
   { s with nextId := s.nextId + 1,
            pending := s.pending ++ [{ id := s.nextId, due := s.now + wait, args := args }] })

/-- The closure `later`: clear `timeout`, then call `func(...args)`. -/
def later {σ α : Type} (func : α → σ → σ) (args : α) (s : Sched σ α) : Sched σ α :=
  let s1 := clearTimeout s.timeout s
  { s1 with world := func args s1.world, invoked := s1.invoked ++ [(s1.now, args)] }

/-- The function returned by `debounce(func, wait)`, called with `args`. -/
def executedFunction {σ α : Type} (wait : Nat) (args : α) (s : Sched σ α) : Sched σ α :=
  let s1 := clearTimeout s.timeout s
  let r := setTimeout args wait s1
  { r.2 with timeout := some r.1 }

/-- The pending timer that fires next when the clock runs up to `t`: the
earliest one due by `t`, the oldest first among equals. -/
def nextDue {α : Type} (t : Nat) : List (Timer α) → Option (Timer α)
  | [] => none
  | x :: rest =>
    match nextDue t rest with
    | none => if x.due ≤ t then some x else none
    | some y => if x.due ≤ y.due then some x else some y

/-- Fire the timers due by `t`, one per unit of fuel. -/
def runDue {σ α : Type} (func : α → σ → σ) (t : Nat) : Nat → Sched σ α → Sched σ α
  | 0, s => s
  | fuel + 1, s =>
    match nextDue t s.pending with
    | none => s
    | some x =>
      let s1 := { s with now := x.due, pending := s.pending.filter (fun y => y.id != x.id) }
      runDue func t fuel (later func x.args s1)

/-- Let the clock run up to time `t`.  Firing `later` sets no timer, so one
unit of fuel per pending timer is enough. -/
def advance {σ α : Type} (func : α → σ → σ) (t : Nat) (s : Sched σ α) : Sched σ α :=
  let s1 := runDue func t s.pending.length s
  { s1 with now := t }

/-- One call of the debounced function: `gap` after the previous event the
environment changes by `env` and the function is called with `args`. -/
structure Call (σ α : Type) where
  gap : Nat
  env : σ → σ
  args : α

/-- Something other than the timers changes the state `func` acts on. -/
def envChange {σ α : Type} (g : σ → σ) (s : Sched σ α) : Sched σ α :=
  { s with world := g s.world }

/-- Perform one call: let `gap` elapse, apply the environment change, call. -/
def doCall {σ α : Type} (func : α → σ → σ) (wait : Nat) (s : Sched σ α) (c : Call σ α) :
    Sched σ α :=
  let s1 := advance func (s.now + c.gap) s
  executedFunction wait c.args (envChange c.env s1)

/-- Perform a sequence of calls. -/
def doCalls {σ α : Type} (func : α → σ → σ) (wait : Nat) (s : Sched σ α)
    (cs : List (Call σ α)) : Sched σ α :=
  cs.foldl (doCall func wait) s

/-- The scheduler right after `debounce(func, wait)` has returned: no timer and
`timeout` still `undefined`. -/
def freshSched {σ α : Type} (t0 : Nat) (w0 : σ) : Sched σ α :=
  { now := t0, nextId := 0, pending := [], timeout := none, world := w0, invoked := [] }

/-- The scheduler after `debounce(func, wait)` at time `t0` and the calls `cs`
of the function it returned. -/
def afterCalls {σ α : Type} (func : α → σ → σ) (wait t0 : Nat) (w0 : σ)
    (cs : List (Call σ α)) : Sched σ α :=
  doCalls func wait (freshSched t0 w0) cs

/-- The one pending timer is the one `timeout` holds, it is due `wait` after
the current time with the arguments `a`, and `func` has not been invoked. -/
def Armed {σ α : Type} (wait : Nat) (s : Sched σ α) (a : α) : Prop :=
  ∃ id, s.pending = [{ id := id, due := s.now + wait, args := a }] ∧
    s.timeout = some id ∧ s.invoked = []

/-- What `updateChatButtonVisibility` reads and writes. -/
structure Viewport where
  innerWidth : Nat
  display : String
  deriving DecidableEq, Repr

/-- Embeds `updateChatButtonVisibility()`; the resize event passed by the listener is
ignored. -/
def updateChatButtonVisibility (_event : Unit) (v : Viewport) : Viewport :=
  let isMobile := decide (v.innerWidth ≤ 768)
  { v with display := if isMobile then "flex" else "none" }

/-- A resize event: the viewport takes the width `width`, then the listener
`debounce(updateChatButtonVisibility, 250)` is called. -/
def resizeTo (gap width : Nat) : Call Viewport Unit :=
  { gap := gap, env := fun v => { v with innerWidth := width }, args := () }

/-! ## Scroll animations -/

/-- An `IntersectionObserverEntry`, as far as the callback reads it. -/
structure IOEntry where
  target : Nat
  isIntersecting : Bool
  deriving DecidableEq, Repr

/-- The observer's observation targets and the class list of every element. -/
structure ObsState where
  observed : List Nat
  classList : Nat → List String

/-- Embeds `observer.observe(el)`. -/
def observe (s : ObsState) (el : Nat) : ObsState :=
  if el ∈ s.observed then s else { s with observed := s.observed ++ [el] }

/-- Embeds `observer.unobserve(el)`. -/
def unobserve (s : ObsState) (el : Nat) : ObsState :=
  { s with observed := s.observed.filter (fun y => y != el) }

/-- The body of the `forEach` in the observer callback. -/
def onEntry (s : ObsState) (entry : IOEntry) : ObsState :=
  if entry.isIntersecting then
    let added := classListAdd (s.classList entry.target) "animate-in"
    let s1 := { s with classList := Function.update s.classList entry.target added }
    unobserve s1 entry.target
  else s

/-- The observer callback: `entries.forEach(...)`. -/
def observerCallback (s : ObsState) (entries : List IOEntry) : ObsState :=
  entries.foldl onEntry s

/-- The observer hands a batch to the callback: only entries whose target is
among the observation targets at that moment are delivered. -/
def deliver (s : ObsState) (batch : List IOEntry) : ObsState :=
  observerCallback s (batch.filter (fun e => decide (e.target ∈ s.observed)))

/-- A sequence of batches, delivered one after the other. -/
def deliverAll (s : ObsState) (batches : List (List IOEntry)) : ObsState :=
  batches.foldl deliver s

/-- Embeds `initializeScrollAnimations()`: a new observer, then `observe` on every
element of the `querySelectorAll` result `els`. -/
def initializeScrollAnimations (els : List Nat) (classList : Nat → List String) : ObsState :=
  els.foldl observe { observed := [], classList := classList }

/-! ## What a run of batches does to one element -/

/-- Element `x` has been left alone between `s` and `s1`. -/
def Untouched (s s1 : ObsState) (x : Nat) : Prop :=
  s1.classList x = s.classList x ∧ (x ∈ s1.observed ↔ x ∈ s.observed)

/-- Element `x` has received `animate-in` between `s` and `s1` and is no longer
observed. -/
def Triggered (s s1 : ObsState) (x : Nat) : Prop :=
  s1.classList x = classListAdd (s.classList x) "animate-in" ∧ x ∉ s1.observed

/-! ## Agreement of flag, view and storage -/

/-- The flag, the two `active` classes and the stored value say the same. -/
def Agree (s : State) : Prop :=
  (s.chatOpen = true ↔ s.panelActive) ∧
  (s.chatOpen = true ↔ s.mobileActive) ∧
  (s.stored = some "true" ↔ s.panelActive)

/-! ## Sample inputs -/

/-- A closed page that carries some other classes and a stored value. -/
def sampleClosed : State :=
  { chatOpen := false, chatPanel := ["chat-panel"], mobileChatButton := ["mobile-chat-btn"],
    localStorage := [("theme", "dark"), ("chatOpen", "false")], body := [],
    removalTimers := [], panelFocus := 0 }

/-- The page as the script finds it on load, `stored` being what an earlier
visit left in `localStorage`. -/
def pageOnLoad (stored : List (String × String)) : State :=
  { chatOpen := false, chatPanel := ["chat-panel"], mobileChatButton := ["mobile-chat-btn"],
    localStorage := stored, body := [], removalTimers := [], panelFocus := 0 }

/-- The Escape key pressed alone. -/
def plainEscape : KeyboardEvent :=
  { ctrlKey := false, metaKey := false, shiftKey := false, code := "Escape", key := "Escape",
    cancelable := true, defaultPrevented := false }

/-- A keydown event whose `key` is Escape while Ctrl and Shift are held and the
physical key is the one at the C position. -/
def comboEscape : KeyboardEvent :=
  { ctrlKey := true, metaKey := false, shiftKey := true, code := "KeyC", key := "Escape",
    cancelable := true, defaultPrevented := false }

/-- First visit: load, one `toggleChat()`, then the Escape key. -/
def openedThenEscape : State :=
  (handleKeyboardShortcuts plainEscape (toggleChat (restoreChatState (pageOnLoad [])))).2

/-- A page whose only elements with an id are `home` (element 10) and `about`
(element 11); the bare selector `#` does not parse. -/
def sampleQuery (selector : String) : QueryResult :=
  if selector = "#home" then QueryResult.element 10
  else if selector = "#about" then QueryResult.element 11
  else if selector = "#" then QueryResult.syntaxError
  else QueryResult.null

/-- Four nav links, two of them marked `active` beforehand. -/
def sampleNav : NavState :=
  { navLinks :=
      [{ href := some "#home", classList := ["nav-link", "active"] },
       { href := some "#about", classList := ["nav-link"] },
       { href := some "/other-page.html", classList := ["nav-link"] },
       { href := some "#missing", classList := ["nav-link", "active"] }],
    scrollCalls := [] }

/-- A click by the user on the nav link at position `i`. -/
def userClick (i : Nat) : ClickEvent :=
  { currentTarget := i, cancelable := true, defaultPrevented := false }

/-- A click on the nav link at position `i` dispatched by a script as an event
that is not cancelable. -/
def dispatchedClick (i : Nat) : ClickEvent :=
  { currentTarget := i, cancelable := false, defaultPrevented := false }

/-- Three observed elements, each with a class of its own kind. -/
def sampleObs : ObsState :=
  initializeScrollAnimations [1, 2, 3] (fun _ => ["about-card"])

/-- Element 1 enters the viewport, leaves it and enters it again. -/
def sampleBatches : List (List IOEntry) :=
  [[{ target := 1, isIntersecting := false }, { target := 2, isIntersecting := false }],
   [{ target := 1, isIntersecting := true }],
   [{ target := 1, isIntersecting := false }],
   [{ target := 1, isIntersecting := true }, { target := 3, isIntersecting := false }]]

/-- The resize listener after three resizes within 250 ms of each other, the
last one to a width of 600. -/
def sampleResized : Sched Viewport Unit :=
  afterCalls updateChatButtonVisibility 250 0 { innerWidth := 1024, display := "" }
    ([resizeTo 1000 900, resizeTo 100 800] ++ [resizeTo 249 600])

/-! ## Lemmas on token lists and storage -/

theorem mem_classListAdd (cl : List String) (tok : String) : tok ∈ classListAdd cl tok := by
  unfold classListAdd
  split
  · assumption
  · simp

theorem not_mem_classListRemove (cl : List String) (tok : String) :
    tok ∉ classListRemove cl tok := by
  simp [classListRemove]

theorem classListAdd_idem (cl : List String) (tok : String) :
    classListAdd (classListAdd cl tok) tok = classListAdd cl tok := by
  have h := mem_classListAdd cl tok
  show (if tok ∈ classListAdd cl tok then classListAdd cl tok
        else classListAdd cl tok ++ [tok]) = classListAdd cl tok
  rw [if_pos h]

theorem classListRemove_of_not_mem (cl : List String) (tok : String) (h : tok ∉ cl) :
    classListRemove cl tok = cl := by
  unfold classListRemove
  rw [List.filter_eq_self]
  intro c hc
  have : c ≠ tok := fun e => h (e ▸ hc)
  simpa using this

theorem getItem_setItem (store : List (String × String)) (key value : String) :
    getItem (setItem store key value) key = some value := by
  induction store with
  | nil => simp [setItem, getItem]
  | cons p rest ih =>
    obtain ⟨k, v⟩ := p
    by_cases h : k = key
    · simp [setItem, getItem, h]
    · simp [setItem, getItem, h, ih]

/-! ## Chat toggle -/

theorem toggleChat_of_closed (s : State) (h : s.chatOpen = false) :
    toggleChat s =
      { chatOpen := true
        chatPanel := classListAdd s.chatPanel "active"
        mobileChatButton := classListAdd s.mobileChatButton "active"
        localStorage := setItem s.localStorage "chatOpen" "true"
        body := s.body ++ [{ role := "status", ariaLive := "polite", position := "absolute",
                             left := "-10000px", textContent := openedMessage }]
        removalTimers := s.removalTimers ++ [3000]
        panelFocus := s.panelFocus + 1 } := by
  simp [toggleChat, openChat, announceToScreenReader, jsonStringifyBool, h]

theorem toggleChat_of_open (s : State) (h : s.chatOpen = true) :
    toggleChat s =
      { chatOpen := false
        chatPanel := classListRemove s.chatPanel "active"
        mobileChatButton := classListRemove s.mobileChatButton "active"
        localStorage := setItem s.localStorage "chatOpen" "false"
        body := s.body ++ [{ role := "status", ariaLive := "polite", position := "absolute",
                             left := "-10000px", textContent := closedMessage }]
        removalTimers := s.removalTimers ++ [3000]
        panelFocus := s.panelFocus } := by
  simp [toggleChat, closeChat, announceToScreenReader, jsonStringifyBool, h]

/-- What `toggleChat()` does on a closed chat. -/
theorem toggleChat_opens (s : State) (h : s.chatOpen = false) :
    (toggleChat s).chatOpen = true ∧
    (toggleChat s).chatPanel = classListAdd s.chatPanel "active" ∧
    (toggleChat s).mobileChatButton = classListAdd s.mobileChatButton "active" ∧
    (toggleChat s).panelActive ∧ (toggleChat s).mobileActive ∧
    (toggleChat s).panelFocus = s.panelFocus + 1 ∧
    (toggleChat s).announcements = s.announcements ++ [openedMessage] ∧
    (toggleChat s).stored = some "true" := by
  rw [toggleChat_of_closed s h]
  refine ⟨rfl, rfl, rfl, mem_classListAdd _ _, mem_classListAdd _ _, rfl, ?_, ?_⟩
  · simp [State.announcements]
  · exact getItem_setItem _ _ _

/-- What `toggleChat()` does on an open chat. -/
theorem toggleChat_closes (s : State) (h : s.chatOpen = true) :
    (toggleChat s).chatOpen = false ∧
    (toggleChat s).chatPanel = classListRemove s.chatPanel "active" ∧
    (toggleChat s).mobileChatButton = classListRemove s.mobileChatButton "active" ∧
    ¬ (toggleChat s).panelActive ∧ ¬ (toggleChat s).mobileActive ∧
    (toggleChat s).panelFocus = s.panelFocus ∧
    (toggleChat s).announcements = s.announcements ++ [closedMessage] ∧
    (toggleChat s).stored = some "false" := by
  rw [toggleChat_of_open s h]
  refine ⟨rfl, rfl, rfl, not_mem_classListRemove _ _, not_mem_classListRemove _ _, rfl, ?_, ?_⟩
  · simp [State.announcements]
  · exact getItem_setItem _ _ _

/-- C1: one call of `toggleChat()` negates `appState.chatOpen`; when the new
value is true it adds `active` to the chat panel and the mobile button, focuses
the panel and emits exactly one announcement, the "opened" text; when the new
value is false it removes `active` from both and emits exactly one
announcement, "Chat window closed."; in both cases the value stored under
`chatOpen` afterwards is the string "true" or "false" of the new flag. -/
theorem toggleChat_spec (s : State) :
    (toggleChat s).chatOpen = (!s.chatOpen) ∧
    ((toggleChat s).chatOpen = true →
      (toggleChat s).chatPanel = classListAdd s.chatPanel "active" ∧
      (toggleChat s).mobileChatButton = classListAdd s.mobileChatButton "active" ∧
      (toggleChat s).panelActive ∧ (toggleChat s).mobileActive ∧
      (toggleChat s).panelFocus = s.panelFocus + 1 ∧
      (toggleChat s).announcements = s.announcements ++
        ["Chat window opened. Your basketball coach is ready to help!"] ∧
      (toggleChat s).stored = some "true") ∧
    ((toggleChat s).chatOpen = false →
      (toggleChat s).chatPanel = classListRemove s.chatPanel "active" ∧
      (toggleChat s).mobileChatButton = classListRemove s.mobileChatButton "active" ∧
      ¬ (toggleChat s).panelActive ∧ ¬ (toggleChat s).mobileActive ∧
      (toggleChat s).panelFocus = s.panelFocus ∧
      (toggleChat s).announcements = s.announcements ++ ["Chat window closed."] ∧
      (toggleChat s).stored = some "false") := by
  cases h : s.chatOpen with
  | false =>
    obtain ⟨h1, h2⟩ := toggleChat_opens s h
    exact ⟨h1, fun _ => h2, fun h3 => (by rw [h1] at h3; cases h3)⟩
  | true =>
    obtain ⟨h1, h2⟩ := toggleChat_closes s h
    exact ⟨h1, fun h3 => (by rw [h1] at h3; cases h3), fun _ => h2⟩

/-- C1 at a concrete closed state: the toggle opens, announces once and stores
"true". -/
theorem toggleChat_spec_witness :
    (toggleChat sampleClosed).chatOpen = true ∧
    (toggleChat sampleClosed).chatPanel = ["chat-panel", "active"] ∧
    (toggleChat sampleClosed).announcements =
      ["Chat window opened. Your basketball coach is ready to help!"] ∧
    (toggleChat sampleClosed).stored = some "true" := by
  have h := (toggleChat_spec sampleClosed).2.1 (by decide)
  exact ⟨by decide, by decide, h.2.2.2.2.2.1, h.2.2.2.2.2.2⟩

/-- C2: from the closed state two calls of `toggleChat()` lead back to the
closed state (flag false, `active` absent from panel and mobile button) with
"false" stored under `chatOpen`; and from every state two consecutive calls
restore the original value of the flag. -/
theorem toggleChat_twice (s : State) :
    (toggleChat (toggleChat s)).chatOpen = s.chatOpen ∧
    (s.chatOpen = false → ¬ s.panelActive → ¬ s.mobileActive →
      (toggleChat (toggleChat s)).chatOpen = false ∧
      ¬ (toggleChat (toggleChat s)).panelActive ∧
      ¬ (toggleChat (toggleChat s)).mobileActive ∧
      (toggleChat (toggleChat s)).chatPanel = s.chatPanel ∧
      (toggleChat (toggleChat s)).mobileChatButton = s.mobileChatButton ∧
      (toggleChat (toggleChat s)).stored = some "false") := by
  constructor
  · cases h : s.chatOpen with
    | false =>
      have ho := (toggleChat_opens s h).1
      exact (toggleChat_closes _ ho).1
    | true =>
      have hc := (toggleChat_closes s h).1
      exact (toggleChat_opens _ hc).1
  intro hc hp hm
  obtain ⟨ho, e1, e2, -⟩ := toggleChat_opens s hc
  obtain ⟨hc2, f1, f2, g1, g2, -, -, g3⟩ := toggleChat_closes (toggleChat s) ho
  refine ⟨hc2, g1, g2, ?_, ?_, g3⟩
  · rw [f1, e1]
    unfold State.panelActive at hp
    simp only [classListAdd, if_neg hp]
    simp only [classListRemove, List.filter_append]
    have := classListRemove_of_not_mem _ _ hp
    unfold classListRemove at this
    rw [this]; simp
  · rw [f2, e2]
    unfold State.mobileActive at hm
    simp only [classListAdd, if_neg hm]
    simp only [classListRemove, List.filter_append]
    have := classListRemove_of_not_mem _ _ hm
    unfold classListRemove at this
    rw [this]; simp

/-- C2 at a concrete closed state. -/
theorem toggleChat_twice_witness :
    (toggleChat (toggleChat sampleClosed)).chatOpen = false ∧
    ¬ (toggleChat (toggleChat sampleClosed)).panelActive ∧
    ¬ (toggleChat (toggleChat sampleClosed)).mobileActive ∧
    (toggleChat (toggleChat sampleClosed)).chatPanel = ["chat-panel"] ∧
    (toggleChat (toggleChat sampleClosed)).mobileChatButton = ["mobile-chat-btn"] ∧
    (toggleChat (toggleChat sampleClosed)).stored = some "false" :=
  (toggleChat_twice sampleClosed).2 (by decide) (by decide) (by decide)

/-! ## Restoring the persisted preference -/

/-- C3: from the initial state (flag false, panel not active), for every value
`v` stored under `chatOpen` (a string, or nothing): `restoreChatState()` ends
with the flag true, the panel active and exactly one "opened" announcement
emitted if and only if `v` is exactly the string "true"; for every other `v`
it ends with the flag false, the panel not active, no announcement emitted and
the storage unchanged. -/
theorem restoreChatState_spec (s : State) (v : Option String)
    (hv : s.stored = v) (h0 : s.chatOpen = false) (hp : ¬ s.panelActive) :
    (((restoreChatState s).chatOpen = true ∧ (restoreChatState s).panelActive ∧
      (restoreChatState s).announcements = s.announcements ++
        ["Chat window opened. Your basketball coach is ready to help!"])
      ↔ v = some "true") ∧
    (v ≠ some "true" →
      (restoreChatState s).chatOpen = false ∧ ¬ (restoreChatState s).panelActive ∧
      (restoreChatState s).announcements = s.announcements ∧
      (restoreChatState s).localStorage = s.localStorage ∧
      restoreChatState s = s) := by
  have hne : v ≠ some "true" → restoreChatState s = s := by
    intro h
    unfold restoreChatState
    unfold State.stored at hv
    simp only [hv, if_neg h]
  have hs : { s with chatOpen := false } = s := by
    cases s; simp_all
  constructor
  · constructor
    · intro h
      by_contra hv2
      rw [hne hv2, h0] at h
      simp at h
    · intro h
      have hr : restoreChatState s = toggleChat s := by
        unfold restoreChatState
        unfold State.stored at hv
        simp only [hv, h, if_true, hs]
      obtain ⟨ho, -, -, g1, -, -, g2, -⟩ := toggleChat_opens s h0
      rw [hr]
      exact ⟨ho, g1, g2⟩
  · intro h
    rw [hne h]
    exact ⟨h0, hp, rfl, rfl, rfl⟩

/-- C3 at a page load that finds "true" stored. -/
theorem restoreChatState_spec_witness :
    (restoreChatState (pageOnLoad [("chatOpen", "true")])).chatOpen = true ∧
    (restoreChatState (pageOnLoad [("chatOpen", "true")])).panelActive ∧
    (restoreChatState (pageOnLoad [("chatOpen", "true")])).announcements =
      ["Chat window opened. Your basketball coach is ready to help!"] :=
  (restoreChatState_spec (pageOnLoad [("chatOpen", "true")]) (some "true")
    (by decide) (by decide) (by decide)).1.2 rfl

/-- Stored values that only resemble "true", and no stored value, leave the
page closed. -/
theorem restoreChatState_malformed :
    restoreChatState (pageOnLoad [("chatOpen", "TRUE")]) = pageOnLoad [("chatOpen", "TRUE")] ∧
    restoreChatState (pageOnLoad [("chatOpen", " true")]) = pageOnLoad [("chatOpen", " true")] ∧
    restoreChatState (pageOnLoad [("chatOpen", "1")]) = pageOnLoad [("chatOpen", "1")] ∧
    restoreChatState (pageOnLoad [("chatOpen", "false")]) = pageOnLoad [("chatOpen", "false")] ∧
    restoreChatState (pageOnLoad []) = pageOnLoad [] := by
  decide

/-! ## Keyboard shortcuts -/

/-- C4, as the code has it: a keydown event whose key is Escape and which is
not at the same time the toggle shortcut (Ctrl or Cmd, Shift, physical key C),
handled while `chatOpen` is false, leaves the whole state as it was, emits no
announcement and does not prevent the default action. -/
theorem escape_when_closed (e : KeyboardEvent) (s : State)
    (_hk : e.key = "Escape") (hc : s.chatOpen = false) (hn : e.isToggleCombo = false) :
    handleKeyboardShortcuts e s = (e, s) ∧
    (handleKeyboardShortcuts e s).2.announcements = s.announcements := by
  have h : handleKeyboardShortcuts e s = (e, s) := by
    simp [handleKeyboardShortcuts, hn, hc]
  exact ⟨h, by rw [h]⟩

/-- C4, amended, at the Escape key pressed alone on a closed page. -/
theorem escape_when_closed_witness :
    handleKeyboardShortcuts plainEscape sampleClosed = (plainEscape, sampleClosed) :=
  (escape_when_closed plainEscape sampleClosed (by decide) (by decide) (by decide)).1

/-- C4 as stated fails: an event whose key is Escape and which also matches the
toggle shortcut, handled while `chatOpen` is false, runs `toggleChat()` and
then `closeChat()`: the flag and the stored value become true and two
announcements are emitted. -/
theorem escape_when_closed_counterexample :
    comboEscape.key = "Escape" ∧ sampleClosed.chatOpen = false ∧
    (handleKeyboardShortcuts comboEscape sampleClosed).2 ≠ sampleClosed ∧
    (handleKeyboardShortcuts comboEscape sampleClosed).2.chatOpen = true ∧
    sampleClosed.stored = some "false" ∧
    (handleKeyboardShortcuts comboEscape sampleClosed).2.stored = some "true" ∧
    sampleClosed.announcements = [] ∧
    (handleKeyboardShortcuts comboEscape sampleClosed).2.announcements =
      ["Chat window opened. Your basketball coach is ready to help!", "Chat window closed."] := by
  decide

/-- C5: a keydown event whose key is Escape, handled while `chatOpen` is true,
leaves the chat closed, `active` absent from the chat panel and the mobile
button, and emits exactly one announcement, "Chat window closed.". -/
theorem escape_when_open (e : KeyboardEvent) (s : State)
    (hk : e.key = "Escape") (ho : s.chatOpen = true) :
    ¬ (handleKeyboardShortcuts e s).2.panelActive ∧
    ¬ (handleKeyboardShortcuts e s).2.mobileActive ∧
    (handleKeyboardShortcuts e s).2.announcements = s.announcements ++ ["Chat window closed."] := by
  cases hcombo : e.isToggleCombo with
  | true =>
    obtain ⟨hf, -, -, g1, g2, -, g3, -⟩ := toggleChat_closes s ho
    have hr : handleKeyboardShortcuts e s
        = (e.preventDefault, toggleChat s) := by
      simp [handleKeyboardShortcuts, hcombo, hf]
    rw [hr]
    exact ⟨g1, g2, g3⟩
  | false =>
    have hr : handleKeyboardShortcuts e s = (e, closeChat s) := by
      simp [handleKeyboardShortcuts, hcombo, ho, hk]
    rw [hr]
    refine ⟨?_, ?_, ?_⟩
    · exact not_mem_classListRemove _ _
    · exact not_mem_classListRemove _ _
    · simp [closeChat, announceToScreenReader, State.announcements, closedMessage]

/-- C5 at the Escape key pressed alone on an open page. -/
theorem escape_when_open_witness :
    ¬ (handleKeyboardShortcuts plainEscape (toggleChat sampleClosed)).2.panelActive ∧
    ¬ (handleKeyboardShortcuts plainEscape (toggleChat sampleClosed)).2.mobileActive ∧
    (handleKeyboardShortcuts plainEscape (toggleChat sampleClosed)).2.announcements =
      (toggleChat sampleClosed).announcements ++ ["Chat window closed."] :=
  escape_when_open plainEscape (toggleChat sampleClosed) (by decide) (by decide)

/-! ## Flag, view and storage -/

/-- Whatever the state before, `toggleChat()` leaves flag, view and storage in
agreement. -/
theorem agree_toggleChat (s : State) : Agree (toggleChat s) := by
  cases h : s.chatOpen with
  | false =>
    obtain ⟨h1, -, -, g1, g2, -, -, g3⟩ := toggleChat_opens s h
    exact ⟨by simp [g1, h1], by simp [g2, h1], by simp [g1, g3]⟩
  | true =>
    obtain ⟨h1, -, -, g1, g2, -, -, g3⟩ := toggleChat_closes s h
    exact ⟨by simp [g1, h1], by simp [g2, h1], by simp [g1, g3]⟩

/-- Page load leaves flag, view and storage in agreement. -/
theorem agree_restoreChatState (s : State) (h0 : s.chatOpen = false)
    (hp : ¬ s.panelActive) (hm : ¬ s.mobileActive) : Agree (restoreChatState s) := by
  by_cases hv : s.stored = some "true"
  · have hs : { s with chatOpen := false } = s := by cases s; simp_all
    have hr : restoreChatState s = toggleChat s := by
      unfold restoreChatState
      unfold State.stored at hv
      simp only [hv, if_true, hs]
    rw [hr]
    exact agree_toggleChat s
  · have hr : restoreChatState s = s := by
      unfold restoreChatState
      unfold State.stored at hv
      simp only [if_neg hv]
    rw [hr]
    exact ⟨by simp [h0, hp], by simp [h0, hm], by simp [hv, hp]⟩

/-- C10 at its failing input: first visit, the chat opened by one
`toggleChat()`, then the Escape key.  The handler calls `closeChat()` alone:
the panel and the mobile button lose `active` while the flag stays true and
"true" stays stored, so flag, view and storage no longer agree. -/
theorem escape_breaks_agreement :
    openedThenEscape.chatOpen = true ∧
    ¬ openedThenEscape.panelActive ∧
    ¬ openedThenEscape.mobileActive ∧
    openedThenEscape.stored = some "true" ∧
    ¬ Agree openedThenEscape := by
  refine ⟨by decide, by decide, by decide, by decide, ?_⟩
  intro h
  exact absurd (h.1.1 (by decide)) (by decide)

/-! ## Navigation -/

theorem getElem?_modifyLink (f : NavLink → NavLink) (i : Nat) (ls : List NavLink) (j : Nat) :
    (modifyLink f i ls)[j]? = if j = i then ls[j]?.map f else ls[j]? := by
  induction ls generalizing i j with
  | nil => cases i <;> simp [modifyLink]
  | cons l ls ih =>
    cases i with
    | zero =>
      cases j with
      | zero => simp [modifyLink]
      | succ j => simp [modifyLink]
    | succ i =>
      cases j with
      | zero => simp [modifyLink]
      | succ j => simp [modifyLink, ih]

theorem length_modifyLink (f : NavLink → NavLink) (i : Nat) (ls : List NavLink) :
    (modifyLink f i ls).length = ls.length := by
  induction ls generalizing i with
  | nil => cases i <;> simp [modifyLink]
  | cons l ls ih => cases i <;> simp [modifyLink, ih]

/-- The result of `handleNavClick` on a fragment link whose target exists. -/
theorem handleNavClick_of_found (query : String → QueryResult) (e : ClickEvent) (d : NavState)
    (link : NavLink) (href : String) (target : Nat)
    (hl : d.navLinks[e.currentTarget]? = some link) (hh : link.href = some href)
    (hs : startsWith href "#" = true) (hq : query href = QueryResult.element target) :
    handleNavClick query e d =
      (Completion.normal, e.preventDefault,
       { navLinks := modifyLink
           (fun l => { l with classList := classListAdd l.classList "active" })
           e.currentTarget
           (d.navLinks.map
             (fun l => { l with classList := classListRemove l.classList "active" })),
         scrollCalls := d.scrollCalls ++ [(target, "smooth")] }) := by
  unfold handleNavClick
  simp only [hl, hh, hs, hq, if_true]

/-- C6, as the code has it: for nav links with arbitrary prior `active` flags
and a clicked nav link of that list whose `href` begins with `#` and whose
fragment matches an existing element, `handleNavClick` calls
`preventDefault()`, which prevents the default action when the click event is
cancelable and leaves the event as it was when it is not; it calls smooth
`scrollIntoView` on the matched element exactly once, and afterwards the
clicked link is the one and only nav link carrying `active`. -/
theorem handleNavClick_found (query : String → QueryResult) (e : ClickEvent) (d : NavState)
    (link : NavLink) (href : String) (target : Nat)
    (hl : d.navLinks[e.currentTarget]? = some link) (hh : link.href = some href)
    (hs : startsWith href "#" = true) (hq : query href = QueryResult.element target) :
    (handleNavClick query e d).1 = Completion.normal ∧
    (handleNavClick query e d).2.1 = e.preventDefault ∧
    (e.cancelable = true → (handleNavClick query e d).2.1.defaultPrevented = true) ∧
    (e.cancelable = false → (handleNavClick query e d).2.1 = e) ∧
    (handleNavClick query e d).2.2.scrollCalls = d.scrollCalls ++ [(target, "smooth")] ∧
    (handleNavClick query e d).2.2.navLinks.length = d.navLinks.length ∧
    (∀ i, (handleNavClick query e d).2.2.active i ↔ i = e.currentTarget) := by
  rw [handleNavClick_of_found query e d link href target hl hh hs hq]
  refine ⟨rfl, rfl, ?_, ?_, rfl, ?_, ?_⟩
  · intro hc
    simp [ClickEvent.preventDefault, hc]
  · intro hc
    simp [ClickEvent.preventDefault, hc]
  · simp [length_modifyLink]
  · intro i
    unfold NavState.active
    simp only [getElem?_modifyLink]
    by_cases hi : i = e.currentTarget
    · subst hi
      simp only [if_true, iff_true]
      refine ⟨_, by rw [List.getElem?_map, hl]; rfl, ?_⟩
      exact mem_classListAdd _ _
    · simp only [if_neg hi]
      refine iff_of_false ?_ hi
      rintro ⟨l, hl2, hact⟩
      rw [List.getElem?_map] at hl2
      cases hg : d.navLinks[i]? with
      | none => simp [hg] at hl2
      | some l0 =>
        simp [hg] at hl2
        subst hl2
        exact not_mem_classListRemove _ _ hact

/-- C7: `handleNavClick` scrolls or changes a nav link only when the `href`
begins with `#` and an element matches; when the `href` does not begin with
`#` there is no scroll call, no nav link changes and the default action is not
prevented; when it begins with `#` and no element matches there is no scroll
call and no nav link changes. -/
theorem handleNavClick_frame (query : String → QueryResult) (e : ClickEvent) (d : NavState) :
    ((handleNavClick query e d).2.2 ≠ d →
      ∃ link href target, d.navLinks[e.currentTarget]? = some link ∧
        link.href = some href ∧ startsWith href "#" = true ∧
        query href = QueryResult.element target) ∧
    (∀ link href, d.navLinks[e.currentTarget]? = some link → link.href = some href →
      startsWith href "#" = false →
      handleNavClick query e d = (Completion.normal, e, d)) ∧
    (∀ link href, d.navLinks[e.currentTarget]? = some link → link.href = some href →
      startsWith href "#" = true → (∀ target, query href ≠ QueryResult.element target) →
      (handleNavClick query e d).2.2 = d) := by
  refine ⟨?_, ?_, ?_⟩
  · intro hne
    cases hl : d.navLinks[e.currentTarget]? with
    | none => exact absurd (by simp [handleNavClick, hl]) hne
    | some link =>
      cases hh : link.href with
      | none => exact absurd (by simp [handleNavClick, hl, hh]) hne
      | some href =>
        cases hs : startsWith href "#" with
        | false => exact absurd (by simp [handleNavClick, hl, hh, hs]) hne
        | true =>
          cases hq : query href with
          | syntaxError => exact absurd (by simp [handleNavClick, hl, hh, hs, hq]) hne
          | null => exact absurd (by simp [handleNavClick, hl, hh, hs, hq]) hne
          | element target => exact ⟨link, href, target, rfl, hh, hs, hq⟩
  · intro link href hl hh hs
    simp [handleNavClick, hl, hh, hs]
  · intro link href hl hh hs hq
    cases hq2 : query href with
    | syntaxError => simp [handleNavClick, hl, hh, hs, hq2]
    | null => simp [handleNavClick, hl, hh, hs, hq2]
    | element target => exact absurd hq2 (hq target)

/-- C6, amended, at a user's click on the `#about` link while two other links
are `active`. -/
theorem handleNavClick_found_witness :
    (handleNavClick sampleQuery (userClick 1) sampleNav).1 = Completion.normal ∧
    (handleNavClick sampleQuery (userClick 1) sampleNav).2.1 = (userClick 1).preventDefault ∧
    ((userClick 1).cancelable = true →
      (handleNavClick sampleQuery (userClick 1) sampleNav).2.1.defaultPrevented = true) ∧
    ((userClick 1).cancelable = false →
      (handleNavClick sampleQuery (userClick 1) sampleNav).2.1 = userClick 1) ∧
    (handleNavClick sampleQuery (userClick 1) sampleNav).2.2.scrollCalls
      = [] ++ [(11, "smooth")] ∧
    (handleNavClick sampleQuery (userClick 1) sampleNav).2.2.navLinks.length = 4 ∧
    (∀ i, (handleNavClick sampleQuery (userClick 1) sampleNav).2.2.active i ↔ i = 1) :=
  handleNavClick_found sampleQuery (userClick 1) sampleNav
    { href := some "#about", classList := ["nav-link"] } "#about" 11
    (by decide) (by decide) (by decide) (by decide)

/-- C6 as stated fails: a click on the `#about` link, whose element exists,
dispatched as an event that is not cancelable: `preventDefault()` has no
effect, the default action is not prevented, while the scroll and the change
of the `active` link take place. -/
theorem handleNavClick_found_counterexample :
    sampleNav.navLinks[(dispatchedClick 1).currentTarget]?
      = some { href := some "#about", classList := ["nav-link"] } ∧
    startsWith "#about" "#" = true ∧
    sampleQuery "#about" = QueryResult.element 11 ∧
    (handleNavClick sampleQuery (dispatchedClick 1) sampleNav).1 = Completion.normal ∧
    (handleNavClick sampleQuery (dispatchedClick 1) sampleNav).2.1.defaultPrevented = false ∧
    (handleNavClick sampleQuery (dispatchedClick 1) sampleNav).2.2.scrollCalls
      = [(11, "smooth")] := by
  decide

/-- C7 at a click on the link to `/other-page.html`: nothing happens and the
default action stays. -/
theorem handleNavClick_frame_witness :
    handleNavClick sampleQuery (userClick 2) sampleNav
      = (Completion.normal, userClick 2, sampleNav) :=
  (handleNavClick_frame sampleQuery (userClick 2) sampleNav).2.1
    { href := some "/other-page.html", classList := ["nav-link"] }
    "/other-page.html" (by decide) (by decide) (by decide)

/-- A fragment without a matching element, and a fragment that is no valid
selector, prevent the default action of a user's click and change nothing
else. -/
theorem handleNavClick_no_match :
    handleNavClick sampleQuery (userClick 3) sampleNav
      = (Completion.normal, { currentTarget := 3, cancelable := true, defaultPrevented := true },
         sampleNav) ∧
    handleNavClick sampleQuery (userClick 0)
        { navLinks := [{ href := some "#", classList := [] }], scrollCalls := [] }
      = (Completion.thrown "SyntaxError",
         { currentTarget := 0, cancelable := true, defaultPrevented := true },
         { navLinks := [{ href := some "#", classList := [] }], scrollCalls := [] }) := by
  decide

/-! ## Scroll animations -/

theorem onEntry_of_not_intersecting (s : ObsState) (e : IOEntry)
    (h : e.isIntersecting = false) : onEntry s e = s := by
  simp [onEntry, h]

theorem onEntry_classList_self (s : ObsState) (e : IOEntry) (h : e.isIntersecting = true) :
    (onEntry s e).classList e.target = classListAdd (s.classList e.target) "animate-in" := by
  simp [onEntry, h, unobserve]

theorem onEntry_classList_other (s : ObsState) (e : IOEntry) (x : Nat) (h : e.target ≠ x) :
    (onEntry s e).classList x = s.classList x := by
  unfold onEntry
  split
  · simp [unobserve, Function.update, Ne.symm h]
  · rfl

theorem onEntry_observed (s : ObsState) (e : IOEntry) (x : Nat) :
    x ∈ (onEntry s e).observed ↔ x ∈ s.observed ∧ ¬ (e.isIntersecting = true ∧ e.target = x) := by
  unfold onEntry
  split
  · rename_i h
    simp only [unobserve, List.mem_filter, h, true_and]
    constructor
    · rintro ⟨h1, h2⟩
      exact ⟨h1, fun h3 => by simp [h3] at h2⟩
    · rintro ⟨h1, h2⟩
      refine ⟨h1, ?_⟩
      have : x ≠ e.target := fun h3 => h2 h3.symm
      simpa using this
  · rename_i h
    simp [h]

theorem untouched_refl (s : ObsState) (x : Nat) : Untouched s s x := ⟨rfl, Iff.rfl⟩

theorem triggered_onEntry (s s1 : ObsState) (x : Nat) (e : IOEntry)
    (h : Triggered s s1 x) : Triggered s (onEntry s1 e) x := by
  obtain ⟨hc, ho⟩ := h
  refine ⟨?_, fun hm => ho ((onEntry_observed s1 e x).1 hm).1⟩
  by_cases ht : e.target = x
  · cases hi : e.isIntersecting with
    | false => rw [onEntry_of_not_intersecting s1 e hi, hc]
    | true =>
      subst ht
      rw [onEntry_classList_self s1 e hi, hc, classListAdd_idem]
  · rw [onEntry_classList_other s1 e x ht, hc]

theorem triggered_callback (s s1 : ObsState) (x : Nat) (es : List IOEntry)
    (h : Triggered s s1 x) : Triggered s (observerCallback s1 es) x := by
  induction es generalizing s1 with
  | nil => exact h
  | cons e es ih => exact ih (onEntry s1 e) (triggered_onEntry s s1 x e h)

theorem untouched_callback (s s1 : ObsState) (x : Nat) (es : List IOEntry)
    (h : Untouched s s1 x) (hes : ∀ e ∈ es, e.target = x → e.isIntersecting = false) :
    Untouched s (observerCallback s1 es) x := by
  induction es generalizing s1 with
  | nil => exact h
  | cons e es ih =>
    refine ih (onEntry s1 e) ?_ (fun e2 h2 => hes e2 (List.mem_cons_of_mem _ h2))
    have he := hes e (List.mem_cons_self _ _)
    obtain ⟨hc, ho⟩ := h
    constructor
    · by_cases ht : e.target = x
      · rw [onEntry_of_not_intersecting s1 e (he ht), hc]
      · rw [onEntry_classList_other s1 e x ht, hc]
    · rw [onEntry_observed, ho]
      constructor
      · exact fun h3 => h3.1
      · intro h3
        exact ⟨h3, fun h4 => by simp [he h4.2] at h4⟩

theorem triggered_of_hit (s s1 : ObsState) (x : Nat) (es : List IOEntry)
    (h : Untouched s s1 x) (hes : ∃ e ∈ es, e.target = x ∧ e.isIntersecting = true) :
    Triggered s (observerCallback s1 es) x := by
  induction es generalizing s1 with
  | nil => simp at hes
  | cons e es ih =>
    by_cases hit : e.target = x ∧ e.isIntersecting = true
    · show Triggered s (observerCallback (onEntry s1 e) es) x
      apply triggered_callback
      obtain ⟨ht, hi⟩ := hit
      subst ht
      refine ⟨by rw [onEntry_classList_self s1 e hi, h.1], ?_⟩
      intro hm
      exact ((onEntry_observed s1 e e.target).1 hm).2 ⟨hi, rfl⟩
    · have hu : Untouched s (observerCallback s1 [e]) x :=
        untouched_callback s s1 x [e] h (by
          intro e2 h2 h3
          simp only [List.mem_singleton] at h2
          subst h2
          cases hi : e2.isIntersecting with
          | false => rfl
          | true => exact absurd ⟨h3, hi⟩ hit)
      refine ih (onEntry s1 e) hu ?_
      obtain ⟨e2, h2, h3⟩ := hes
      rcases List.mem_cons.1 h2 with h4 | h4
      · subst h4; exact absurd h3 hit
      · exact ⟨e2, h4, h3⟩

/-- A batch none of whose entries for `x` is intersecting leaves `x` alone. -/
theorem untouched_deliver (s : ObsState) (x : Nat) (b : List IOEntry)
    (hb : ∀ e ∈ b, e.target = x → e.isIntersecting = false) : Untouched s (deliver s b) x :=
  untouched_callback s s x _ (untouched_refl s x)
    (fun e he => hb e (List.mem_filter.1 he).1)

/-- An element that is not observed gets no entry delivered. -/
theorem untouched_deliver_of_unobserved (s : ObsState) (x : Nat) (b : List IOEntry)
    (hx : x ∉ s.observed) : Untouched s (deliver s b) x := by
  refine untouched_callback s s x _ (untouched_refl s x) ?_
  intro e he ht
  have := (List.mem_filter.1 he).2
  simp only [decide_eq_true_eq] at this
  exact absurd (ht ▸ this) hx

/-- A batch with an intersecting entry for an observed `x` triggers `x`. -/
theorem triggered_deliver (s : ObsState) (x : Nat) (b : List IOEntry) (hx : x ∈ s.observed)
    (hb : ∃ e ∈ b, e.target = x ∧ e.isIntersecting = true) : Triggered s (deliver s b) x := by
  refine triggered_of_hit s s x _ (untouched_refl s x) ?_
  obtain ⟨e, he, ht, hi⟩ := hb
  exact ⟨e, List.mem_filter.2 ⟨he, by simp [ht, hx]⟩, ht, hi⟩

theorem step_deliver (s : ObsState) (x : Nat) (b : List IOEntry) :
    Untouched s (deliver s b) x ∨ Triggered s (deliver s b) x := by
  by_cases hx : x ∈ s.observed
  · by_cases hb : ∃ e ∈ b, e.target = x ∧ e.isIntersecting = true
    · exact Or.inr (triggered_deliver s x b hx hb)
    · refine Or.inl (untouched_deliver s x b ?_)
      intro e he ht
      cases hi : e.isIntersecting with
      | false => rfl
      | true => exact absurd ⟨e, he, ht, hi⟩ hb
  · exact Or.inl (untouched_deliver_of_unobserved s x b hx)

theorem step_trans (s s1 s2 : ObsState) (x : Nat)
    (h1 : Untouched s s1 x ∨ Triggered s s1 x) (h2 : Untouched s1 s2 x ∨ Triggered s1 s2 x) :
    Untouched s s2 x ∨ Triggered s s2 x := by
  rcases h1 with ⟨c1, o1⟩ | ⟨c1, o1⟩ <;> rcases h2 with ⟨c2, o2⟩ | ⟨c2, o2⟩
  · exact Or.inl ⟨by rw [c2, c1], o2.trans o1⟩
  · exact Or.inr ⟨by rw [c2, c1], o2⟩
  · exact Or.inr ⟨by rw [c2, c1], fun h => o1 (o2.1 h)⟩
  · exact Or.inr ⟨by rw [c2, c1, classListAdd_idem], o2⟩

theorem step_deliverAll (s : ObsState) (x : Nat) (bs : List (List IOEntry)) :
    Untouched s (deliverAll s bs) x ∨ Triggered s (deliverAll s bs) x := by
  induction bs generalizing s with
  | nil => exact Or.inl (untouched_refl s x)
  | cons b bs ih => exact step_trans s (deliver s b) _ x (step_deliver s x b) (ih (deliver s b))

theorem untouched_deliverAll_of_unobserved (s : ObsState) (x : Nat) (bs : List (List IOEntry))
    (hx : x ∉ s.observed) : Untouched s (deliverAll s bs) x := by
  induction bs generalizing s with
  | nil => exact untouched_refl s x
  | cons b bs ih =>
    have h1 := untouched_deliver_of_unobserved s x b hx
    have h2 := ih (deliver s b) (fun h => hx (h1.2.1 h))
    exact ⟨by rw [show deliverAll s (b :: bs) = deliverAll (deliver s b) bs from rfl, h2.1, h1.1],
      h2.2.trans h1.2⟩

/-- C9: with the observer delivering only entries of elements it observes at
that moment, over every sequence of batches an element gets `animate-in` at
most once: a batch without an intersecting entry for it leaves its classes and
its registration alone (an entry with `isIntersecting = false` changes
nothing at all), the first batch with an intersecting entry adds the class and
unobserves the element, and from then on no batch touches it again. -/
theorem scrollAnimation_oneShot (s : ObsState) (x : Nat) :
    (∀ e : IOEntry, e.isIntersecting = false → onEntry s e = s) ∧
    (∀ b : List IOEntry, (∀ e ∈ b, e.target = x → e.isIntersecting = false) →
      (deliver s b).classList x = s.classList x ∧
      (x ∈ (deliver s b).observed ↔ x ∈ s.observed)) ∧
    (∀ b : List IOEntry, x ∈ s.observed →
      (∃ e ∈ b, e.target = x ∧ e.isIntersecting = true) →
      (deliver s b).classList x = classListAdd (s.classList x) "animate-in" ∧
      "animate-in" ∈ (deliver s b).classList x ∧ x ∉ (deliver s b).observed) ∧
    (∀ bs : List (List IOEntry), x ∉ s.observed →
      (deliverAll s bs).classList x = s.classList x ∧ x ∉ (deliverAll s bs).observed) ∧
    (∀ bs : List (List IOEntry),
      (deliverAll s bs).classList x = s.classList x ∨
      ((deliverAll s bs).classList x = classListAdd (s.classList x) "animate-in" ∧
        x ∉ (deliverAll s bs).observed)) ∧
    (∀ bs : List (List IOEntry), "animate-in" ∉ s.classList x →
      ((deliverAll s bs).classList x).count "animate-in" ≤ 1) := by
  refine ⟨fun e he => onEntry_of_not_intersecting s e he,
    fun b hb => untouched_deliver s x b hb, ?_, ?_, ?_, ?_⟩
  · intro b hx hb
    have h := triggered_deliver s x b hx hb
    exact ⟨h.1, by rw [h.1]; exact mem_classListAdd _ _, h.2⟩
  · intro bs hx
    have h := untouched_deliverAll_of_unobserved s x bs hx
    exact ⟨h.1, fun hm => hx (h.2.1 hm)⟩
  · intro bs
    rcases step_deliverAll s x bs with h | h
    · exact Or.inl h.1
    · exact Or.inr h
  · intro bs hn
    rcases step_deliverAll s x bs with h | h
    · rw [h.1, List.count_eq_zero_of_not_mem hn]
      exact Nat.zero_le _
    · rw [h.1]
      simp only [classListAdd, if_neg hn, List.count_append, List.count_eq_zero_of_not_mem hn]
      simp

/-- C9 after element 1 has been triggered: a later batch that reports it
intersecting again changes nothing. -/
theorem scrollAnimation_oneShot_witness :
    (deliverAll (deliver sampleObs [{ target := 1, isIntersecting := true }])
      [[{ target := 1, isIntersecting := false }],
       [{ target := 1, isIntersecting := true }]]).classList 1
      = (deliver sampleObs [{ target := 1, isIntersecting := true }]).classList 1 ∧
    1 ∉ (deliverAll (deliver sampleObs [{ target := 1, isIntersecting := true }])
      [[{ target := 1, isIntersecting := false }],
       [{ target := 1, isIntersecting := true }]]).observed :=
  (scrollAnimation_oneShot (deliver sampleObs [{ target := 1, isIntersecting := true }])
    1).2.2.2.1 _ (by decide)

/-- An element that enters the viewport, leaves it and enters it again ends
with one `animate-in`, and only the elements never seen stay observed. -/
theorem scrollAnimation_reentry :
    (deliverAll sampleObs sampleBatches).classList 1 = ["about-card", "animate-in"] ∧
    (deliverAll sampleObs sampleBatches).classList 2 = ["about-card"] ∧
    (deliverAll sampleObs sampleBatches).observed = [2, 3] := by
  decide

/-! ## Debounce -/

section Debounce

variable {σ α : Type}

theorem nextDue_none (t : Nat) (l : List (Timer α)) (h : nextDue t l = none) :
    ∀ x ∈ l, t < x.due := by
  induction l with
  | nil => simp
  | cons y rest ih =>
    unfold nextDue at h
    cases hr : nextDue t rest with
    | none =>
      rw [hr] at h
      simp only at h
      intro x hx
      rcases List.mem_cons.1 hx with rfl | hx
      · by_contra hc
        rw [if_pos (Nat.le_of_not_lt hc)] at h
        simp at h
      · exact ih hr x hx
    | some z =>
      rw [hr] at h
      simp only at h
      split at h <;> simp at h

theorem nextDue_some (t : Nat) (l : List (Timer α)) (x : Timer α) (h : nextDue t l = some x) :
    x ∈ l ∧ x.due ≤ t := by
  induction l generalizing x with
  | nil => simp [nextDue] at h
  | cons y rest ih =>
    unfold nextDue at h
    cases hr : nextDue t rest with
    | none =>
      rw [hr] at h
      simp only at h
      split at h
      · rename_i hy
        simp only [Option.some.injEq] at h
        subst h
        exact ⟨List.mem_cons_self _ _, hy⟩
      · simp at h
    | some z =>
      rw [hr] at h
      simp only at h
      obtain ⟨hz1, hz2⟩ := ih z hr
      split at h
      · rename_i hy
        simp only [Option.some.injEq] at h
        subst h
        exact ⟨List.mem_cons_self _ _, Nat.le_trans hy hz2⟩
      · simp only [Option.some.injEq] at h
        subst h
        exact ⟨List.mem_cons_of_mem _ hz1, hz2⟩

theorem length_filter_id_lt (l : List (Timer α)) (x : Timer α) (hx : x ∈ l) :
    (l.filter (fun y => y.id != x.id)).length < l.length := by
  induction l with
  | nil => simp at hx
  | cons y rest ih =>
    rcases List.mem_cons.1 hx with rfl | hx
    · simp only [List.filter_cons, bne_self_eq_false, Bool.false_eq_true, if_false,
        List.length_cons]
      exact Nat.lt_succ_of_le (List.length_filter_le _ _)
    · have := ih hx
      simp only [List.filter_cons, List.length_cons]
      split
      · simp only [List.length_cons]; omega
      · omega

theorem clearTimeout_length_le (h : Option Nat) (s : Sched σ α) :
    (clearTimeout h s).pending.length ≤ s.pending.length := by
  cases h with
  | none => exact Nat.le_refl _
  | some i => exact List.length_filter_le _ _

/-- The fuel `advance` gives is enough: when `runDue` stops with at least as
much fuel as there were pending timers, no pending timer is due. -/
theorem runDue_complete (func : α → σ → σ) (t fuel : Nat) (s : Sched σ α)
    (h : s.pending.length ≤ fuel) : ∀ x ∈ (runDue func t fuel s).pending, t < x.due := by
  induction fuel generalizing s with
  | zero =>
    have : s.pending = [] := List.length_eq_zero.1 (Nat.le_zero.1 h)
    simp [runDue, this]
  | succ fuel ih =>
    unfold runDue
    cases hn : nextDue t s.pending with
    | none => exact nextDue_none t s.pending hn
    | some x =>
      simp only
      apply ih
      have h1 := length_filter_id_lt s.pending x (nextDue_some t s.pending x hn).1
      have h2 : (later func x.args
          { s with now := x.due, pending := s.pending.filter (fun y => y.id != x.id) }).pending.length
          ≤ (s.pending.filter (fun y => y.id != x.id)).length := by
        unfold later
        exact clearTimeout_length_le _ _
      omega

/-- After `advance` to time `t` every timer still pending is due later. -/
theorem advance_complete (func : α → σ → σ) (t : Nat) (s : Sched σ α) :
    ∀ x ∈ (advance func t s).pending, t < x.due :=
  runDue_complete func t s.pending.length s (Nat.le_refl _)

theorem advance_now (func : α → σ → σ) (t : Nat) (s : Sched σ α) :
    (advance func t s).now = t := rfl

theorem advance_idle (func : α → σ → σ) (t : Nat) (s : Sched σ α) (h : s.pending = []) :
    advance func t s = { s with now := t } := by
  simp [advance, h, runDue]

theorem advance_early (func : α → σ → σ) (t : Nat) (s : Sched σ α) (x : Timer α)
    (h : s.pending = [x]) (ht : t < x.due) : advance func t s = { s with now := t } := by
  have hn : nextDue t [x] = none := by
    simp [nextDue, Nat.not_le.2 ht]
  simp [advance, h, runDue, hn]

theorem advance_fire (func : α → σ → σ) (t : Nat) (s : Sched σ α) (x : Timer α)
    (h : s.pending = [x]) (hto : s.timeout = some x.id) (ht : x.due ≤ t) :
    advance func t s =
      { s with now := t, pending := [], world := func x.args s.world,
               invoked := s.invoked ++ [(x.due, x.args)] } := by
  have hn : nextDue t [x] = some x := by
    simp [nextDue, ht]
  simp [advance, h, runDue, hn, later, clearTimeout, hto]

theorem doCall_idle (func : α → σ → σ) (wait : Nat) (s : Sched σ α) (c : Call σ α)
    (h : s.pending = []) (hto : s.timeout = none) (hi : s.invoked = []) :
    Armed wait (doCall func wait s c) c.args ∧
    (doCall func wait s c).now = s.now + c.gap ∧
    (doCall func wait s c).world = c.env s.world := by
  have key : doCall func wait s c =
      { now := s.now + c.gap, nextId := s.nextId + 1,
        pending := [{ id := s.nextId, due := s.now + c.gap + wait, args := c.args }],
        timeout := some s.nextId, world := c.env s.world, invoked := s.invoked } := by
    unfold doCall
    rw [advance_idle func _ s h]
    simp [executedFunction, clearTimeout, setTimeout, envChange, h, hto]
  rw [key]
  exact ⟨⟨s.nextId, rfl, rfl, hi⟩, rfl, rfl⟩

theorem doCall_armed (func : α → σ → σ) (wait : Nat) (s : Sched σ α) (a : α) (c : Call σ α)
    (h : Armed wait s a) (hg : c.gap < wait) :
    Armed wait (doCall func wait s c) c.args ∧
    (doCall func wait s c).now = s.now + c.gap ∧
    (doCall func wait s c).world = c.env s.world := by
  obtain ⟨id, hp, hto, hi⟩ := h
  have key : doCall func wait s c =
      { now := s.now + c.gap, nextId := s.nextId + 1,
        pending := [{ id := s.nextId, due := s.now + c.gap + wait, args := c.args }],
        timeout := some s.nextId, world := c.env s.world, invoked := s.invoked } := by
    unfold doCall
    rw [advance_early func _ s _ hp (by simpa using hg)]
    simp [executedFunction, clearTimeout, setTimeout, envChange, hp, hto]
  rw [key]
  exact ⟨⟨s.nextId, rfl, rfl, hi⟩, rfl, rfl⟩

theorem doCalls_armed (func : α → σ → σ) (wait : Nat) (s : Sched σ α) (a : α)
    (cs : List (Call σ α)) (h : Armed wait s a) (hg : ∀ c ∈ cs, c.gap < wait) :
    (∃ a2, Armed wait (doCalls func wait s cs) a2) ∧
    (doCalls func wait s cs).now = s.now + (cs.map (fun c => c.gap)).sum ∧
    (doCalls func wait s cs).world = cs.foldl (fun v c => c.env v) s.world := by
  induction cs generalizing s a with
  | nil => exact ⟨⟨a, h⟩, by simp [doCalls], rfl⟩
  | cons c cs ih =>
    obtain ⟨h1, h2, h3⟩ := doCall_armed func wait s a c h (hg c (List.mem_cons_self _ _))
    obtain ⟨k1, k2, k3⟩ := ih (doCall func wait s c) c.args h1
      (fun c2 hc2 => hg c2 (List.mem_cons_of_mem _ hc2))
    refine ⟨k1, ?_, ?_⟩
    · show (doCalls func wait (doCall func wait s c) cs).now = _
      rw [k2, h2]; simp [Nat.add_assoc]
    · show (doCalls func wait (doCall func wait s c) cs).world = _
      rw [k3, h3]; rfl

theorem doCalls_append_last (func : α → σ → σ) (wait : Nat) (s : Sched σ α)
    (pre : List (Call σ α)) (last : Call σ α) :
    doCalls func wait s (pre ++ [last]) = doCall func wait (doCalls func wait s pre) last := by
  simp [doCalls, List.foldl_append]

/-- After the calls the timer of the last call, and no other, is pending. -/
theorem afterCalls_armed (func : α → σ → σ) (wait t0 : Nat) (w0 : σ)
    (pre : List (Call σ α)) (last : Call σ α)
    (hgap : ∀ c ∈ (pre ++ [last]).tail, c.gap < wait) :
    Armed wait (afterCalls func wait t0 w0 (pre ++ [last])) last.args ∧
    (afterCalls func wait t0 w0 (pre ++ [last])).now
      = t0 + ((pre ++ [last]).map (fun c => c.gap)).sum ∧
    (afterCalls func wait t0 w0 (pre ++ [last])).world
      = (pre ++ [last]).foldl (fun v c => c.env v) w0 := by
  unfold afterCalls
  cases pre with
  | nil =>
    have h := doCall_idle func wait (freshSched t0 w0) last rfl rfl rfl
    simpa [doCalls, freshSched] using h
  | cons c pre =>
    have hg : ∀ c2 ∈ pre ++ [last], c2.gap < wait := by simpa using hgap
    obtain ⟨h1, h2, h3⟩ := doCall_idle func wait (freshSched t0 w0) c rfl rfl rfl
    obtain ⟨⟨a2, k1⟩, k2, k3⟩ := doCalls_armed func wait _ c.args pre h1
      (fun c2 hc2 => hg c2 (List.mem_append_left _ hc2))
    obtain ⟨m1, m2, m3⟩ := doCall_armed func wait _ a2 last k1
      (hg last (List.mem_append_right _ (List.mem_singleton_self _)))
    have e : doCalls func wait (freshSched t0 w0) (c :: pre ++ [last])
        = doCall func wait (doCalls func wait (doCall func wait (freshSched t0 w0) c) pre) last := by
      rw [doCalls_append_last]; rfl
    rw [e]
    refine ⟨m1, ?_, ?_⟩
    · rw [m2, k2, h2]
      simp [freshSched, Nat.add_assoc]
    · rw [m3, k3, h3]
      simp [freshSched, List.foldl_append]

/-- The scheduler once the clock has passed the due time of the armed timer. -/
theorem advance_armed_late (func : α → σ → σ) (wait : Nat) (s : Sched σ α) (a : α) (t : Nat)
    (h : Armed wait s a) (ht : s.now + wait ≤ t) :
    (advance func t s).invoked = [(s.now + wait, a)] ∧
    (advance func t s).pending = [] ∧
    (advance func t s).world = func a s.world := by
  obtain ⟨id, hp, hto, hi⟩ := h
  rw [advance_fire func t s _ hp hto ht]
  simp [hi]

/-- The scheduler while the armed timer is not yet due. -/
theorem advance_armed_early (func : α → σ → σ) (wait : Nat) (s : Sched σ α) (a : α) (t : Nat)
    (h : Armed wait s a) (ht : t < s.now + wait) :
    advance func t s = { s with now := t } := by
  obtain ⟨id, hp, -, -⟩ := h
  exact advance_early func t s _ hp ht

/-- C8: with timers on an explicit scheduler, after `debounce(func, wait)` and
a non-empty sequence of calls of the returned function, each less than `wait`
after the one before, `func` is invoked exactly once, `wait` after the last
call and with the arguments of the last call, on the state as it is when the
timer fires; no earlier timer is left pending and none fires.  For the resize
listener `func` is `updateChatButtonVisibility` and `wait` is 250. -/
theorem debounce_spec (func : α → σ → σ) (wait t0 : Nat) (w0 : σ)
    (pre : List (Call σ α)) (last : Call σ α)
    (hgap : ∀ c ∈ (pre ++ [last]).tail, c.gap < wait) :
    (afterCalls func wait t0 w0 (pre ++ [last])).now
      = t0 + ((pre ++ [last]).map (fun c => c.gap)).sum ∧
    (afterCalls func wait t0 w0 (pre ++ [last])).invoked = [] ∧
    (∃ id, (afterCalls func wait t0 w0 (pre ++ [last])).pending =
      [{ id := id, due := (afterCalls func wait t0 w0 (pre ++ [last])).now + wait,
         args := last.args }]) ∧
    (∀ D, D < wait →
      (advance func ((afterCalls func wait t0 w0 (pre ++ [last])).now + D)
        (afterCalls func wait t0 w0 (pre ++ [last]))).invoked = []) ∧
    (∀ D, wait ≤ D →
      (advance func ((afterCalls func wait t0 w0 (pre ++ [last])).now + D)
        (afterCalls func wait t0 w0 (pre ++ [last]))).invoked
        = [((afterCalls func wait t0 w0 (pre ++ [last])).now + wait, last.args)] ∧
      (advance func ((afterCalls func wait t0 w0 (pre ++ [last])).now + D)
        (afterCalls func wait t0 w0 (pre ++ [last]))).pending = [] ∧
      (advance func ((afterCalls func wait t0 w0 (pre ++ [last])).now + D)
        (afterCalls func wait t0 w0 (pre ++ [last]))).world
        = func last.args ((pre ++ [last]).foldl (fun v c => c.env v) w0)) ∧
    (∀ D0 D (g : σ → σ), D0 < wait → wait ≤ D →
      (advance func ((afterCalls func wait t0 w0 (pre ++ [last])).now + D)
        (envChange g
          (advance func ((afterCalls func wait t0 w0 (pre ++ [last])).now + D0)
            (afterCalls func wait t0 w0 (pre ++ [last]))))).invoked
        = [((afterCalls func wait t0 w0 (pre ++ [last])).now + wait, last.args)] ∧
      (advance func ((afterCalls func wait t0 w0 (pre ++ [last])).now + D)
        (envChange g
          (advance func ((afterCalls func wait t0 w0 (pre ++ [last])).now + D0)
            (afterCalls func wait t0 w0 (pre ++ [last]))))).world
        = func last.args (g ((pre ++ [last]).foldl (fun v c => c.env v) w0))) := by
  obtain ⟨hA, hnow, hworld⟩ := afterCalls_armed func wait t0 w0 pre last hgap
  refine ⟨hnow, ?_, ?_, ?_, ?_, ?_⟩
  · obtain ⟨id, -, -, hi⟩ := hA
    exact hi
  · obtain ⟨id, hp, -, -⟩ := hA
    exact ⟨id, hp⟩
  · intro D hD
    rw [advance_armed_early func wait _ last.args _ hA (by omega)]
    obtain ⟨id, -, -, hi⟩ := hA
    exact hi
  · intro D hD
    have h := advance_armed_late func wait _ last.args
      ((afterCalls func wait t0 w0 (pre ++ [last])).now + D) hA (by omega)
    rw [hworld] at h
    exact h
  · intro D0 D g hD0 hD
    rw [advance_armed_early func wait _ last.args _ hA (by omega)]
    obtain ⟨id, hp, hto, hi⟩ := hA
    rw [advance_fire func _ _
      (Timer.mk id ((afterCalls func wait t0 w0 (pre ++ [last])).now + wait) last.args)
      (by simp [envChange, hp]) (by simp [envChange, hto]) (by simp; omega)]
    simp [envChange, hi, hworld]

/-- Debounced resizes: whatever the widths on the way, the visibility is
recomputed once, 250 ms after the last resize, from the width of that
moment. -/
theorem resize_recomputes_once (t0 : Nat) (v0 : Viewport) (pre : List (Nat × Nat))
    (gap width D : Nat)
    (hgap : ∀ c ∈ (pre.map (fun r => resizeTo r.1 r.2) ++ [resizeTo gap width]).tail,
      c.gap < 250)
    (hD : 250 ≤ D) :
    (advance updateChatButtonVisibility
      ((afterCalls updateChatButtonVisibility 250 t0 v0
        (pre.map (fun r => resizeTo r.1 r.2) ++ [resizeTo gap width])).now + D)
      (afterCalls updateChatButtonVisibility 250 t0 v0
        (pre.map (fun r => resizeTo r.1 r.2) ++ [resizeTo gap width]))).invoked.length = 1 ∧
    (advance updateChatButtonVisibility
      ((afterCalls updateChatButtonVisibility 250 t0 v0
        (pre.map (fun r => resizeTo r.1 r.2) ++ [resizeTo gap width])).now + D)
      (afterCalls updateChatButtonVisibility 250 t0 v0
        (pre.map (fun r => resizeTo r.1 r.2) ++ [resizeTo gap width]))).world
      = { innerWidth := width, display := if width ≤ 768 then "flex" else "none" } := by
  obtain ⟨hA, -, hworld⟩ := afterCalls_armed updateChatButtonVisibility 250 t0 v0
    (pre.map (fun r => resizeTo r.1 r.2)) (resizeTo gap width) hgap
  have h := advance_armed_late updateChatButtonVisibility 250 _ (resizeTo gap width).args
    ((afterCalls updateChatButtonVisibility 250 t0 v0
      (pre.map (fun r => resizeTo r.1 r.2) ++ [resizeTo gap width])).now + D) hA (by omega)
  refine ⟨by rw [h.1]; rfl, ?_⟩
  rw [h.2.2, hworld]
  simp [List.foldl_append, resizeTo, updateChatButtonVisibility]

/-- C8 at the resize listener: three resizes within 250 ms of each other, the
last one to 600 px, then 250 ms of quiet. -/
theorem debounce_spec_witness :
    (advance updateChatButtonVisibility (sampleResized.now + 250) sampleResized).invoked
      = [(sampleResized.now + 250, ())] ∧
    (advance updateChatButtonVisibility (sampleResized.now + 250) sampleResized).pending = [] ∧
    (advance updateChatButtonVisibility (sampleResized.now + 250) sampleResized).world
      = updateChatButtonVisibility ()
          (([resizeTo 1000 900, resizeTo 100 800] ++ [resizeTo 249 600]).foldl
            (fun v c => c.env v) { innerWidth := 1024, display := "" }) :=
  (debounce_spec updateChatButtonVisibility 250 0 { innerWidth := 1024, display := "" }
    [resizeTo 1000 900, resizeTo 100 800] (resizeTo 249 600)
    (by simp [resizeTo])).2.2.2.2.1 250 (Nat.le_refl _)

/-- The same run, evaluated: the only recomputation happens at time 1599 and
shows the button, the width then being 600; one millisecond earlier nothing
has been recomputed. -/
theorem resize_run_evaluated :
    sampleResized.now = 1349 ∧
    (advance updateChatButtonVisibility 1598 sampleResized).invoked = [] ∧
    (advance updateChatButtonVisibility 1598 sampleResized).world.display = "" ∧
    (advance updateChatButtonVisibility 1599 sampleResized).invoked = [(1599, ())] ∧
    (advance updateChatButtonVisibility 1599 sampleResized).world
      = { innerWidth := 600, display := "flex" } ∧
    (advance updateChatButtonVisibility 5000 sampleResized).invoked = [(1599, ())] := by
  decide

end Debounce

end App
